import Mathlib

/-!
Verification of the DJ Reactor real-time audio-to-movement pipeline
(`apps/dj-reactor`): `audio_analyzer.py` (BeatTracker, FrequencyAnalyzer,
AudioAnalyzer callback) and `music_animations.py` (MovementMapper,
RobotController).

The audio-analysis side works with exact rationals (ℚ) standing for the
Python floats; the movement side, which uses `math.sin`, `math.pi` and
`np.deg2rad`, is embedded over ℝ.  Randomness (`random.gauss`,
`random.choice`) is determinized by passing the drawn values in as an
explicit oracle.  Where the Python code computes an RMS square root,
the RMS value itself is taken as the input parameter, since every
downstream computation depends on the chunk only through it.
-/

namespace DJReactor

/-- `collections.deque(maxlen = cap)` append: push `x` on the right and
evict from the left whenever the capacity would be exceeded. -/
def pushBounded {α : Type} (cap : ℕ) (xs : List α) (x : α) : List α :=
  if xs.length < cap then xs ++ [x] else (xs ++ [x]).drop (xs.length + 1 - cap)

/-- `np.mean` over a list (only ever used on nonempty lists in the source). -/
def mean (xs : List ℚ) : ℚ := xs.sum / (xs.length : ℚ)

/-- `np.median`: sort ascending; middle element for odd length, average of the
two middle elements for even length. -/
def median (xs : List ℚ) : ℚ :=
  let s := xs.insertionSort (· ≤ ·)
  let n := xs.length
  if n % 2 = 1 then s.getD (n / 2) 0
  else (s.getD (n / 2 - 1) 0 + s.getD (n / 2) 0) / 2

/-- Python float `a % b` for `b > 0`: `a - b * floor (a / b)`. -/
def pymod (a b : ℚ) : ℚ := a - b * ⌊a / b⌋

/-! ## BeatTracker (`audio_analyzer.py`, lines 54-129) -/

/-- State of `BeatTracker.__init__`: bounded beat-timestamp history
(maxlen 50), last beat time, BPM estimate, beat interval, bounded energy
history (maxlen 10). -/
structure BeatTracker where
  beat_times : List ℚ
  last_beat_time : ℚ
  estimated_bpm : ℚ
  beat_interval : ℚ
  energy_history : List ℚ
deriving DecidableEq, Repr

namespace BeatTracker

/-- Initial tracker state from `BeatTracker.__init__`. -/
def init : BeatTracker :=
  { beat_times := [], last_beat_time := 0, estimated_bpm := 120,
    beat_interval := 1/2, energy_history := [] }

/-- `self.onset_threshold = 1.3`. -/
def onsetThreshold : ℚ := 13/10

/-- Consecutive inter-beat intervals
(`intervals = [times[i+1] - times[i] for i in range(len(times) - 1)]`). -/
def beatIntervals (times : List ℚ) : List ℚ :=
  List.zipWith (fun a b => b - a) times (times.drop 1)

/-- The intervals surviving the outlier filter: strictly between
`0.5 * median` and `2 * median` of the intervals
(`[i for i in intervals if 0.5 * median_interval < i < 2 * median_interval]`). -/
def validIntervals (times : List ℚ) : List ℚ :=
  (beatIntervals times).filter
    (fun i => decide (1/2 * median (beatIntervals times) < i
      ∧ i < 2 * median (beatIntervals times)))

/-- `BeatTracker._update_bpm` (lines 103-122): requires at least 4 stored
beat timestamps; consecutive inter-beat intervals; median outlier filter
keeping intervals strictly between `0.5 * median` and `2 * median`; if any
remain, `beat_interval` becomes their mean and `estimated_bpm` becomes
`60 / beat_interval` clamped into `[60, 200]`. -/
def updateBpm (st : BeatTracker) : BeatTracker :=
  if st.beat_times.length < 4 then st
  else
    let valid := validIntervals st.beat_times
    if valid = [] then st
    else { st with beat_interval := mean valid,
                   estimated_bpm := max 60 (min 200 (60 / mean valid)) }

/-- `BeatTracker.process` (lines 72-101).  In the source
`energy = np.sqrt(np.mean(audio_chunk ** 2))` (the RMS of the chunk);
here that RMS value `energy` is the input.  Returns
`(beat_detected, capped onset strength, new state)`. -/
def process (st : BeatTracker) (energy t : ℚ) : Bool × ℚ × BeatTracker :=
  let hist := pushBounded 10 st.energy_history energy
  let st1 := { st with energy_history := hist }
  if hist.length < 3 then (false, 0, st1)
  else
    let avg := mean hist.dropLast
    let onset := energy / (avg + 1/10000000000)
    let minInterval := st1.beat_interval * (7/10)
    let beat := decide (onsetThreshold < onset)
      && decide (minInterval < t - st1.last_beat_time)
      && decide ((1/500 : ℚ) < energy)
    if beat then
      let st2 := { st1 with beat_times := pushBounded 50 st1.beat_times t,
                            last_beat_time := t }
      (true, min (onset / onsetThreshold) 2, updateBpm st2)
    else (false, min (onset / onsetThreshold) 2, st1)

/-- `BeatTracker.get_beat_phase` (lines 124-129). -/
def getBeatPhase (st : BeatTracker) (t : ℚ) : ℚ :=
  if st.beat_interval ≤ 0 then 0
  else pymod ((t - st.last_beat_time) / st.beat_interval) 1

end BeatTracker

/-! ## FrequencyAnalyzer (`audio_analyzer.py`, lines 132-184)

The FFT itself (irrational twiddle factors) is not formalized: the
magnitude spectrum `np.abs(np.fft.rfft(windowed))` is abstracted by taking
a per-bin list of rationals as the input and applying `|·|` for `np.abs`,
which preserves the nonnegativity the source relies on.  The
windowing/padding stage that feeds the FFT is modelled separately over ℝ
below (`hanning`, `windowedPadded`). -/

/-- `config.py DEFAULT_SAMPLE_RATE = 44100`. -/
def sampleRate : ℚ := 44100

/-- `FrequencyAnalyzer.__init__` default `fft_size = 2048`. -/
def fftSize : ℕ := 2048

/-- `np.fft.rfftfreq` bin center frequency: `k * sample_rate / fft_size`. -/
def binFreq (k : ℕ) : ℚ := (k : ℚ) * sampleRate / (fftSize : ℚ)

/-- Bins whose center frequency lies in the inclusive range `[lo, hi]`
(`np.where((freqs >= lo) & (freqs <= hi))`). -/
def bandBins (lo hi : ℚ) : List ℕ :=
  (List.range (fftSize / 2 + 1)).filter
    (fun k => decide (lo ≤ binFreq k) && decide (binFreq k ≤ hi))

/-- `config.py BASS_RANGE = (20, 250)`. -/
def bassBins : List ℕ := bandBins 20 250

/-- `config.py MID_RANGE = (250, 2000)`. -/
def midBins : List ℕ := bandBins 250 2000

/-- `config.py TREBLE_RANGE = (2000, 12000)`. -/
def trebleBins : List ℕ := bandBins 2000 12000

/-- `np.mean(spectrum[bins]) if len(bins) > 0 else 0`. -/
def bandEnergy (spectrum : List ℚ) (bins : List ℕ) : ℚ :=
  if 0 < bins.length then mean (bins.map (fun k => spectrum.getD k 0)) else 0

/-- The three exponential-smoothing accumulators of `FrequencyAnalyzer`,
all initialized to `0.0` in `__init__`. -/
structure FreqState where
  bass_smooth : ℚ
  mid_smooth : ℚ
  treble_smooth : ℚ
deriving DecidableEq, Repr

namespace FrequencyAnalyzer

/-- `self.bass_smooth = self.mid_smooth = self.treble_smooth = 0.0`. -/
def init : FreqState := { bass_smooth := 0, mid_smooth := 0, treble_smooth := 0 }

/-- `self.smoothing_factor = 0.3`. -/
def smoothingFactor : ℚ := 3/10

/-- `FrequencyAnalyzer.process` (lines 151-184), from the magnitude
spectrum on: band energies over precomputed bins, normalization by fixed
per-band divisors capped at 1, exponential smoothing, and spectrum
normalization by its maximum plus epsilon.  Returns
`((bass, mid, treble, normalized spectrum), new state)`. -/
def process (st : FreqState) (spectrumRaw : List ℚ) :
    (ℚ × ℚ × ℚ × List ℚ) × FreqState :=
  let spectrum := spectrumRaw.map (fun x => |x|)
  let bassEnergy := bandEnergy spectrum bassBins
  let midEnergy := bandEnergy spectrum midBins
  let trebleEnergy := bandEnergy spectrum trebleBins
  let bass := min (bassEnergy / 10) 1
  let mid := min (midEnergy / 8) 1
  let treble := min (trebleEnergy / 5) 1
  let st1 : FreqState :=
    { bass_smooth := st.bass_smooth * smoothingFactor + bass * (1 - smoothingFactor),
      mid_smooth := st.mid_smooth * smoothingFactor + mid * (1 - smoothingFactor),
      treble_smooth := st.treble_smooth * smoothingFactor + treble * (1 - smoothingFactor) }
  let spectrumMax := spectrum.foldr max 0
  let spectrumNormalized := spectrum.map (fun x => x / (spectrumMax + 1/10000000000))
  ((st1.bass_smooth, st1.mid_smooth, st1.treble_smooth, spectrumNormalized), st1)

/-- Fold `process` over a sequence of chunks' spectra, keeping the state. -/
def run (st : FreqState) (specs : List (List ℚ)) : FreqState :=
  specs.foldl (fun s spec => (process s spec).2) st

end FrequencyAnalyzer

/-! ## AudioAnalyzer callback (`audio_analyzer.py`, lines 187-281) -/

/-- `AudioFeatures` dataclass (lines 31-51), with its default field
values. -/
structure AudioFeatures where
  bass : ℚ := 0
  mid : ℚ := 0
  treble : ℚ := 0
  rms : ℚ := 0
  beat_detected : Bool := false
  onset_strength : ℚ := 0
  bpm : ℚ := 120
  beat_phase : ℚ := 0
  is_silent : Bool := true
  timestamp : ℚ := 0
deriving DecidableEq, Repr

/-- `AudioFeatures()` with every field at its default. -/
def noFeatures : AudioFeatures := {}

/-- Mutable state of `AudioAnalyzer` touched by `_audio_callback`:
the silence debounce counter and the two analysis components. -/
structure AnalyzerState where
  frames_silent : ℕ
  tracker : BeatTracker
  freq : FreqState
deriving DecidableEq, Repr

namespace AudioAnalyzer

/-- `self.frames_silent = 0` and freshly constructed components. -/
def init : AnalyzerState :=
  { frames_silent := 0, tracker := BeatTracker.init, freq := FrequencyAnalyzer.init }

/-- `self.silence_threshold = 0.001`. -/
def silenceThreshold : ℚ := 1/1000

/-- `AudioAnalyzer._audio_callback` (lines 228-281).  `energy` is the RMS
`np.sqrt(np.mean(audio ** 2))` of the mono chunk (the same value the
beat tracker recomputes internally), `spectrumRaw` abstracts the FFT
output fed to the frequency analyzer, `t` is the chunk timestamp. -/
def callback (st : AnalyzerState) (energy : ℚ) (spectrumRaw : List ℚ) (t : ℚ) :
    AudioFeatures × AnalyzerState :=
  let silentChunk := decide (energy < silenceThreshold)
  let frames := if silentChunk then st.frames_silent + 1 else 0
  let beatResult := BeatTracker.process st.tracker energy t
  let freqResult := FrequencyAnalyzer.process st.freq spectrumRaw
  let tracker := beatResult.2.2
  let features : AudioFeatures :=
    { bass := freqResult.1.1,
      mid := freqResult.1.2.1,
      treble := freqResult.1.2.2.1,
      rms := min (energy * 10) 1,
      beat_detected := beatResult.1,
      onset_strength := beatResult.2.1,
      bpm := tracker.estimated_bpm,
      beat_phase := BeatTracker.getBeatPhase tracker t,
      is_silent := silentChunk && decide (10 < frames),
      timestamp := t }
  (features, { frames_silent := frames, tracker := tracker, freq := freqResult.2 })

/-- Mean of squares of a chunk; in the source the RMS energy of a chunk is
`np.sqrt` of this quantity. -/
def rmsSq (chunk : List ℚ) : ℚ := mean (chunk.map (fun x => x ^ 2))

/-- Run the callback over a stream of all-zero chunks (RMS energy 0 and
all-zero magnitude spectrum, as produced by an all-zero chunk), one
timestamp per chunk; `specs` lists each chunk's spectrum (zero lists for
an all-zero chunk; the silence and beat outputs do not depend on it). -/
def runZeroChunks (st : AnalyzerState) : List ℚ → List (List ℚ) → List AudioFeatures
  | [], _ => []
  | t :: ts, specs =>
    let r := callback st 0 (specs.headD []) t
    r.1 :: runZeroChunks r.2 ts specs.tail

end AudioAnalyzer

/-! ## Windowing stage of `FrequencyAnalyzer.process` (lines 156-164)

Embedded over ℝ because the Hann window involves cosines. -/

noncomputable section

/-- `np.hanning(M)`: `[1]` for `M = 1`, otherwise the raised-cosine
values `0.5 - 0.5 * cos(2 * pi * n / (M - 1))` for `n = 0 .. M - 1`
(empty for `M = 0`). -/
def hanning (M : ℕ) : List ℝ :=
  if M = 1 then [1]
  else (List.range M).map
    (fun n : ℕ => 1/2 - 1/2 * Real.cos (2 * Real.pi * (n : ℝ) / ((M : ℝ) - 1)))

/-- Lines 156-164 of `FrequencyAnalyzer.process`: the array handed to
`np.fft.rfft`.  The chunk is multiplied elementwise by a Hann window of
the CHUNK's length, then zero-padded up to `fftSize` when shorter, and
finally truncated to `fftSize` (`windowed[:self.fft_size]`). -/
def windowedPadded (fftSize : ℕ) (chunk : List ℝ) : List ℝ :=
  let windowed := List.zipWith (· * ·) chunk (hanning chunk.length)
  let padded := if windowed.length < fftSize
    then windowed ++ List.replicate (fftSize - windowed.length) 0 else windowed
  padded.take fftSize

/-- The ORDER OF OPERATIONS the spec describes, for comparison with
`windowedPadded` (refinement check): "if N is shorter than the configured
FFT size, zero-pad to that size before windowing is applied ...
(window length must match the padded length used for transform)" — i.e.
pad first, then apply a Hann window of the padded length. -/
def windowedPaddedSpecOrder (fftSize : ℕ) (chunk : List ℝ) : List ℝ :=
  let padded := if chunk.length < fftSize
    then chunk ++ List.replicate (fftSize - chunk.length) 0 else chunk
  List.zipWith (· * ·) padded (hanning padded.length)

/-- RMS energy `np.sqrt(np.mean(chunk ** 2))` of a chunk of rational
samples. -/
def rmsEnergy (chunk : List ℚ) : ℝ := Real.sqrt (AudioAnalyzer.rmsSq chunk)

/-! ## MovementMapper (`music_animations.py`, lines 31-314) -/

/-- `GenrePreset` dataclass (`config.py`, lines 26-51), with its default
field values.  Styles are the source's strings. -/
structure GenrePreset where
  name : String := ""
  display_name : String := ""
  head_bob_amplitude : ℝ := 8
  head_bob_speed : ℝ := 1
  body_sway_amplitude : ℝ := 20
  body_sway_speed : ℝ := 1
  antenna_style : String := "pulse"
  antenna_amplitude : ℝ := 1/2
  emphasis_style : String := "nod"
  idle_style : String := "breathing"
  randomness : ℝ := 1/5
  movement_smoothing : ℝ := 3/10

/-- `MovementCommand` dataclass (`music_animations.py`, lines 31-42), with
its default field values. -/
structure MovementCommand where
  head_z : ℝ := 0
  head_roll : ℝ := 0
  head_pitch : ℝ := 0
  body_yaw : ℝ := 0
  antenna_left : ℝ := 0
  antenna_right : ℝ := 0
  duration : ℝ := 1/10
  priority : ℤ := 0

/-- Mutable state of `MovementMapper.__init__` (lines 50-69): preset,
intensity, sensitivity, phase, last beat time, idle flag, idle phase, the
five movement-smoothing accumulators, and the bounded feature history
(maxlen 30). -/
structure MovementMapper where
  preset : GenrePreset
  intensity : ℝ
  sensitivity : ℝ
  phase : ℝ := 0
  last_beat_time : ℝ := 0
  is_idle : Bool := true
  idle_phase : ℝ := 0
  smooth_head_z : ℝ := 0
  smooth_head_roll : ℝ := 0
  smooth_body_yaw : ℝ := 0
  smooth_antenna_l : ℝ := 0
  smooth_antenna_r : ℝ := 0
  feature_history : List AudioFeatures := []

/-- Oracle for the random draws the mapper makes on one tick:
`random.choice([-1, 1])` for the tilt sign, `random.choice` between the
two flick sides, and the six standard Gaussian draws behind
`random.gauss(0, sigma)` (which is `sigma` times a standard draw). -/
structure Rand where
  tilt_sign : ℝ
  flick_side : ℝ × ℝ
  g_head_z : ℝ
  g_head_roll : ℝ
  g_head_pitch : ℝ
  g_body_yaw : ℝ
  g_antenna_l : ℝ
  g_antenna_r : ℝ

namespace MovementMapper

/-- `MovementMapper.__init__` with its default `intensity = 0.7`,
`sensitivity = 0.6`. -/
def init (preset : GenrePreset) : MovementMapper :=
  { preset := preset, intensity := 7/10, sensitivity := 3/5 }

/-- `MovementMapper.update_intensity` (lines 76-78). -/
def updateIntensity (m : MovementMapper) (intensity : ℝ) : MovementMapper :=
  { m with intensity := max 0 (min 1 intensity) }

/-- `MovementMapper.update_sensitivity` (lines 80-82). -/
def updateSensitivity (m : MovementMapper) (sensitivity : ℝ) : MovementMapper :=
  { m with sensitivity := max 0 (min 1 sensitivity) }

/-- `MovementMapper._get_antenna_movement` (lines 176-209). -/
def getAntennaMovement (rnd : Rand) (f : AudioFeatures) (preset : GenrePreset) : ℝ × ℝ :=
  let treble := (f.treble : ℝ) * preset.antenna_amplitude
  let phase := (f.beat_phase : ℝ)
  if preset.antenna_style = "pulse" then
    let value := treble * (1 - phase)
    (value, value)
  else if preset.antenna_style = "flick" then
    if f.beat_detected then (rnd.flick_side.1 * treble * 2, rnd.flick_side.2 * treble * 2)
    else (0, 0)
  else if preset.antenna_style = "sway" then
    let offset := Real.sin (phase * 2 * Real.pi) * treble
    (offset * (3/10), -offset * (3/10))
  else if preset.antenna_style = "bounce" then
    let bounce := |Real.sin (phase * 4 * Real.pi)| * treble
    (bounce * (2/5), bounce * (2/5))
  else if preset.antenna_style = "dramatic" then
    if f.beat_detected then ((7/10) * treble, (7/10) * treble)
    else (-(1/5) * treble, -(1/5) * treble)
  else (0, 0)

/-- `MovementMapper._get_continuous_movement` (lines 116-137). -/
def getContinuousMovement (m : MovementMapper) (rnd : Rand) (f : AudioFeatures) :
    MovementCommand :=
  let preset := m.preset
  let bodySway := (f.bass : ℝ) * preset.body_sway_amplitude
    * Real.sin ((f.beat_phase : ℝ) * 2 * Real.pi)
  let headZ := (f.mid : ℝ) * preset.head_bob_amplitude * (1/2)
    * Real.sin ((f.beat_phase : ℝ) * 4 * Real.pi)
  let antennaBase := getAntennaMovement rnd f preset
  { head_z := headZ, head_roll := 0, head_pitch := 0, body_yaw := bodySway,
    antenna_left := antennaBase.1, antenna_right := antennaBase.2, duration := 1/20 }

/-- `MovementMapper._get_beat_movement` (lines 139-174). -/
def getBeatMovement (m : MovementMapper) (rnd : Rand) (f : AudioFeatures) :
    MovementCommand :=
  let preset := m.preset
  let strength := (f.onset_strength : ℝ) * m.sensitivity
  let headZ := -preset.head_bob_amplitude * strength
  let rollPitch : ℝ × ℝ :=
    if preset.emphasis_style = "headbang" then (0, -20 * strength)
    else if preset.emphasis_style = "nod" then (0, -10 * strength)
    else if preset.emphasis_style = "tilt" then (rnd.tilt_sign * 15 * strength, 0)
    else (0, 0)
  { head_z := headZ, head_roll := rollPitch.1, head_pitch := rollPitch.2,
    body_yaw := 0, antenna_left := (2/5) * strength, antenna_right := (2/5) * strength,
    duration := 1/10, priority := 1 }

/-- The command `MovementMapper._get_idle_movement` (lines 211-247) builds
from the (already advanced) idle phase `p`, by idle style. -/
def idleCommand (preset : GenrePreset) (p : ℝ) : MovementCommand :=
  if preset.idle_style = "breathing" then
    let breath := Real.sin p * (15/100)
    { antenna_left := breath, antenna_right := breath, head_z := breath * 3,
      duration := 1/5 }
  else if preset.idle_style = "swaying" then
    let sway := Real.sin (p * (1/2)) * 15
    { body_yaw := sway, head_roll := sway * (1/5), duration := 3/10 }
  else if preset.idle_style = "nodding" then
    let nod := Real.sin (p * (7/10)) * 5
    { head_pitch := nod, duration := 1/5 }
  else if preset.idle_style = "still" then { duration := 1/2 }
  else { duration := 1/5 }

/-- `MovementMapper._get_idle_movement` (lines 211-247): set the idle
flag, advance the idle phase by `0.02`, and build the style's command
from the advanced phase. -/
def getIdleMovement (m : MovementMapper) : MovementCommand × MovementMapper :=
  let m1 := { m with is_idle := true, idle_phase := m.idle_phase + 1/50 }
  (idleCommand m1.preset m1.idle_phase, m1)

/-- `MovementMapper._scale_by_intensity` (lines 249-261). -/
def scaleByIntensity (m : MovementMapper) (cmd : MovementCommand) : MovementCommand :=
  let scale := m.intensity
  { head_z := cmd.head_z * scale, head_roll := cmd.head_roll * scale,
    head_pitch := cmd.head_pitch * scale, body_yaw := cmd.body_yaw * scale,
    antenna_left := cmd.antenna_left * scale, antenna_right := cmd.antenna_right * scale,
    duration := cmd.duration, priority := cmd.priority }

/-- `MovementMapper._smooth_movement` (lines 263-282): exponential
smoothing of every pose field except `head_pitch`, which stays
responsive; the accumulators are updated in place. -/
def smoothMovement (m : MovementMapper) (cmd : MovementCommand) :
    MovementCommand × MovementMapper :=
  let factor := m.preset.movement_smoothing
  let z := m.smooth_head_z * factor + cmd.head_z * (1 - factor)
  let roll := m.smooth_head_roll * factor + cmd.head_roll * (1 - factor)
  let yaw := m.smooth_body_yaw * factor + cmd.body_yaw * (1 - factor)
  let al := m.smooth_antenna_l * factor + cmd.antenna_left * (1 - factor)
  let ar := m.smooth_antenna_r * factor + cmd.antenna_right * (1 - factor)
  ({ head_z := z, head_roll := roll, head_pitch := cmd.head_pitch, body_yaw := yaw,
     antenna_left := al, antenna_right := ar, duration := cmd.duration,
     priority := cmd.priority },
   { m with smooth_head_z := z, smooth_head_roll := roll, smooth_body_yaw := yaw,
            smooth_antenna_l := al, smooth_antenna_r := ar })

/-- `MovementMapper._add_variation` (lines 284-299): Gaussian noise per
field, standard draw times the per-field standard deviation. -/
def addVariation (m : MovementMapper) (rnd : Rand) (cmd : MovementCommand) :
    MovementCommand :=
  if m.preset.randomness ≤ 0 then cmd
  else
    let r := m.preset.randomness
    { head_z := cmd.head_z + rnd.g_head_z * (r * 2),
      head_roll := cmd.head_roll + rnd.g_head_roll * (r * 3),
      head_pitch := cmd.head_pitch + rnd.g_head_pitch * (r * 2),
      body_yaw := cmd.body_yaw + rnd.g_body_yaw * (r * 5),
      antenna_left := cmd.antenna_left + rnd.g_antenna_l * (r * (1/10)),
      antenna_right := cmd.antenna_right + rnd.g_antenna_r * (r * (1/10)),
      duration := cmd.duration, priority := cmd.priority }

/-- `MovementMapper._blend_commands` (lines 301-314). -/
def blendCommands (cmd1 cmd2 : MovementCommand) (weight : ℝ) : MovementCommand :=
  let w1 := 1 - weight
  let w2 := weight
  { head_z := cmd1.head_z * w1 + cmd2.head_z * w2,
    head_roll := cmd1.head_roll * w1 + cmd2.head_roll * w2,
    head_pitch := cmd1.head_pitch * w1 + cmd2.head_pitch * w2,
    body_yaw := cmd1.body_yaw * w1 + cmd2.body_yaw * w2,
    antenna_left := cmd1.antenna_left * w1 + cmd2.antenna_left * w2,
    antenna_right := cmd1.antenna_right * w1 + cmd2.antenna_right * w2,
    duration := min cmd1.duration cmd2.duration,
    priority := max cmd1.priority cmd2.priority }

/-- `MovementMapper.process` (lines 84-114): append the features to the
bounded history; on silence, the idle path; otherwise the
continuous/beat/intensity/smoothing/variation pipeline. -/
def process (m : MovementMapper) (rnd : Rand) (f : AudioFeatures) :
    MovementCommand × MovementMapper :=
  let m1 := { m with feature_history := pushBounded 30 m.feature_history f }
  if f.is_silent then getIdleMovement m1
  else
    let m2 := { m1 with is_idle := false }
    let cmd := getContinuousMovement m2 rnd f
    let step : MovementCommand × MovementMapper :=
      if f.beat_detected then
        (blendCommands cmd (getBeatMovement m2 rnd f) (7/10),
         { m2 with last_beat_time := (f.timestamp : ℝ) })
      else (cmd, m2)
    let cmd1 := scaleByIntensity step.2 step.1
    let smoothed := smoothMovement step.2 cmd1
    (addVariation smoothed.2 rnd smoothed.1, smoothed.2)

end MovementMapper

/-- A call to `update_intensity` or `update_sensitivity` with an
arbitrary argument. -/
inductive MapperUpdate where
  | setIntensity (x : ℝ)
  | setSensitivity (x : ℝ)

/-- Apply one update call to the mapper. -/
def applyUpdate (m : MovementMapper) : MapperUpdate → MovementMapper
  | MapperUpdate.setIntensity x => MovementMapper.updateIntensity m x
  | MapperUpdate.setSensitivity x => MovementMapper.updateSensitivity m x

/-- Apply a sequence of update calls in order. -/
def applyUpdates (m : MovementMapper) (us : List MapperUpdate) : MovementMapper :=
  us.foldl applyUpdate m

/-! ## RobotController (`music_animations.py`, lines 317-377) -/

/-- The argument tuple of the `robot.goto_target` call issued by
`RobotController.execute` (lines 366-372): head pose from
`create_head_pose(z=head_z, roll=head_roll, mm=True, degrees=True)`,
the two antenna targets, the body yaw in radians, and the duration
(the interpolation method is the fixed string "minjerk"). -/
structure GotoCall where
  head_z : ℝ
  head_roll : ℝ
  antennas : ℝ × ℝ
  body_yaw : ℝ
  duration : ℝ

namespace RobotController

/-- `np.deg2rad`. -/
def deg2rad (x : ℝ) : ℝ := x * Real.pi / 180

/-- The clamped `head_pitch` local of line 351
(`max(-self.max_head_pitch, min(self.max_head_pitch, cmd.head_pitch))`);
computed by `execute` but passed to neither `create_head_pose` nor
`goto_target`. -/
def clampedHeadPitch (cmd : MovementCommand) : ℝ :=
  max (-40) (min 40 cmd.head_pitch)

/-- Lines 348-372 of `RobotController.execute`: the safety clamps
(`max_head_z = 15`, `max_head_roll = 40`, `max_body_yaw = 60`,
`max_antenna = 0.8`) applied to the command, and the resulting
`goto_target` call, with `body_yaw` converted to radians. -/
def executedCall (cmd : MovementCommand) : GotoCall :=
  let headZ := max (-15) (min 15 cmd.head_z)
  let headRoll := max (-40) (min 40 cmd.head_roll)
  let bodyYaw := max (-60) (min 60 cmd.body_yaw)
  let antennaL := max (-(4/5)) (min (4/5) cmd.antenna_left)
  let antennaR := max (-(4/5)) (min (4/5) cmd.antenna_right)
  { head_z := headZ, head_roll := headRoll, antennas := (antennaL, antennaR),
    body_yaw := deg2rad bodyYaw, duration := cmd.duration }

/-- `RobotController.execute` (lines 339-377) including its guards: no
call is issued when the controller is disabled, the robot is absent, or
`create_head_pose` is unavailable. -/
def execute (isEnabled hasRobot hasPoseFn : Bool) (cmd : MovementCommand) :
    Option GotoCall :=
  if isEnabled && hasRobot && hasPoseFn then some (executedCall cmd) else none

end RobotController

end

/-! ## Theorems -/

/-- C1: every field of the command forwarded to the actuator by
`RobotController.execute` is first clamped to the fixed safety range —
`head_z` to `[-15, 15]` mm, `head_roll` and (the computed, unforwarded)
`head_pitch` to `[-40, 40]` degrees, `body_yaw` to `[-60, 60]` degrees and
each antenna value to `[-0.8, 0.8]` — and `body_yaw` is converted from
degrees to radians before the `goto_target` call, for every input
command on every tick. -/
theorem execute_clamps_all_fields (cmd : MovementCommand) :
    (-15 ≤ (RobotController.executedCall cmd).head_z ∧
      (RobotController.executedCall cmd).head_z ≤ 15) ∧
    (-40 ≤ (RobotController.executedCall cmd).head_roll ∧
      (RobotController.executedCall cmd).head_roll ≤ 40) ∧
    (-40 ≤ RobotController.clampedHeadPitch cmd ∧
      RobotController.clampedHeadPitch cmd ≤ 40) ∧
    (-(4/5) ≤ (RobotController.executedCall cmd).antennas.1 ∧
      (RobotController.executedCall cmd).antennas.1 ≤ 4/5) ∧
    (-(4/5) ≤ (RobotController.executedCall cmd).antennas.2 ∧
      (RobotController.executedCall cmd).antennas.2 ≤ 4/5) ∧
    (-60 ≤ max (-60) (min 60 cmd.body_yaw) ∧ max (-60) (min 60 cmd.body_yaw) ≤ 60) ∧
    (RobotController.executedCall cmd).body_yaw =
      RobotController.deg2rad (max (-60) (min 60 cmd.body_yaw)) ∧
    (RobotController.executedCall cmd).duration = cmd.duration := by
  refine ⟨⟨le_max_left _ _, max_le (by norm_num) (min_le_left _ _)⟩,
    ⟨le_max_left _ _, max_le (by norm_num) (min_le_left _ _)⟩,
    ⟨le_max_left _ _, max_le (by norm_num) (min_le_left _ _)⟩,
    ⟨le_max_left _ _, max_le (by norm_num) (min_le_left _ _)⟩,
    ⟨le_max_left _ _, max_le (by norm_num) (min_le_left _ _)⟩,
    ⟨le_max_left _ _, max_le (by norm_num) (min_le_left _ _)⟩, rfl, rfl⟩

/-- C3: the actuator call issued by `RobotController.execute` does not
depend on the command's `head_pitch` field — two commands that differ only
in `head_pitch` produce identical `goto_target` calls. -/
theorem execute_ignores_head_pitch (cmd : MovementCommand) (p : ℝ) :
    RobotController.executedCall { cmd with head_pitch := p } =
      RobotController.executedCall cmd := rfl

/-- C8: `BeatTracker.get_beat_phase` returns
`((current_time - last_beat_time) / beat_interval) mod 1` when
`beat_interval > 0` and `0` when `beat_interval <= 0`, and in all cases
the result lies in `[0, 1)`. -/
theorem beat_phase_in_unit_interval (st : BeatTracker) (t : ℚ) :
    BeatTracker.getBeatPhase st t =
      (if st.beat_interval ≤ 0 then 0
       else pymod ((t - st.last_beat_time) / st.beat_interval) 1) ∧
    0 ≤ BeatTracker.getBeatPhase st t ∧ BeatTracker.getBeatPhase st t < 1 := by
  refine ⟨rfl, ?_, ?_⟩ <;>
  · unfold BeatTracker.getBeatPhase pymod
    split
    · norm_num
    · rw [div_one, one_mul]
      have h1 := Int.floor_le ((t - st.last_beat_time) / st.beat_interval)
      have h2 := Int.lt_floor_add_one ((t - st.last_beat_time) / st.beat_interval)
      linarith

/-- Bounds of the updater's clamp. -/
lemma clamp01_bounds (x : ℝ) : 0 ≤ max 0 (min 1 x) ∧ max 0 (min 1 x) ≤ 1 :=
  ⟨le_max_left _ _, max_le zero_le_one (min_le_left _ _)⟩

/-- Any in-range intensity/sensitivity pair stays in range across any
sequence of update calls. -/
lemma applyUpdates_bounds (us : List MapperUpdate) :
    ∀ m : MovementMapper,
      0 ≤ m.intensity → m.intensity ≤ 1 → 0 ≤ m.sensitivity → m.sensitivity ≤ 1 →
      (0 ≤ (applyUpdates m us).intensity ∧ (applyUpdates m us).intensity ≤ 1) ∧
      (0 ≤ (applyUpdates m us).sensitivity ∧ (applyUpdates m us).sensitivity ≤ 1) := by
  induction us with
  | nil => intro m h1 h2 h3 h4; exact ⟨⟨h1, h2⟩, ⟨h3, h4⟩⟩
  | cons u us ih =>
    intro m h1 h2 h3 h4
    cases u with
    | setIntensity x =>
      exact ih _ (clamp01_bounds x).1 (clamp01_bounds x).2 h3 h4
    | setSensitivity x =>
      exact ih _ h1 h2 (clamp01_bounds x).1 (clamp01_bounds x).2

/-- C10: `update_intensity` and `update_sensitivity` clamp their argument
into `[0, 1]` (via `max(0, min(1, x))`) before storing it, so from the
constructor's defaults any sequence of update calls with arbitrary
arguments keeps intensity and sensitivity in `[0, 1]`. -/
theorem intensity_sensitivity_clamped (preset : GenrePreset) (m : MovementMapper)
    (x : ℝ) (us : List MapperUpdate) :
    ((MovementMapper.updateIntensity m x).intensity = max 0 (min 1 x) ∧
      0 ≤ (MovementMapper.updateIntensity m x).intensity ∧
      (MovementMapper.updateIntensity m x).intensity ≤ 1) ∧
    ((MovementMapper.updateSensitivity m x).sensitivity = max 0 (min 1 x) ∧
      0 ≤ (MovementMapper.updateSensitivity m x).sensitivity ∧
      (MovementMapper.updateSensitivity m x).sensitivity ≤ 1) ∧
    (0 ≤ (applyUpdates (MovementMapper.init preset) us).intensity ∧
      (applyUpdates (MovementMapper.init preset) us).intensity ≤ 1 ∧
      0 ≤ (applyUpdates (MovementMapper.init preset) us).sensitivity ∧
      (applyUpdates (MovementMapper.init preset) us).sensitivity ≤ 1) := by
  have h := applyUpdates_bounds us (MovementMapper.init preset)
    (by norm_num [MovementMapper.init]) (by norm_num [MovementMapper.init])
    (by norm_num [MovementMapper.init]) (by norm_num [MovementMapper.init])
  exact ⟨⟨rfl, (clamp01_bounds x).1, (clamp01_bounds x).2⟩,
    ⟨rfl, (clamp01_bounds x).1, (clamp01_bounds x).2⟩,
    h.1.1, h.1.2, h.2.1, h.2.2⟩

/-- C6: `BeatTracker.process` returns `(False, 0.0)` whenever fewer than
3 energy samples are in the bounded history after appending; otherwise
the returned onset strength is
`min((rms / (avg + epsilon)) / onset_threshold, 2)` where `avg` is the
mean of all history entries excluding the just-appended one; in every
case the returned onset strength is at most 2. -/
theorem process_onset_characterization (st : BeatTracker) (e t : ℚ) :
    (if (pushBounded 10 st.energy_history e).length < 3 then
        (BeatTracker.process st e t).1 = false ∧ (BeatTracker.process st e t).2.1 = 0
      else
        (BeatTracker.process st e t).2.1 =
          min ((e / (mean (pushBounded 10 st.energy_history e).dropLast
              + 1/10000000000)) / BeatTracker.onsetThreshold) 2) ∧
    (BeatTracker.process st e t).2.1 ≤ 2 := by
  constructor
  · by_cases h : (pushBounded 10 st.energy_history e).length < 3
    · rw [if_pos h]
      simp only [BeatTracker.process]
      rw [if_pos h]
      exact ⟨rfl, rfl⟩
    · rw [if_neg h]
      simp only [BeatTracker.process]
      rw [if_neg h]
      split <;> rfl
  · simp only [BeatTracker.process]
    split
    · norm_num
    · split <;> exact min_le_right _ _

/-- C2: BPM re-estimation in `BeatTracker.process` happens exactly when a
beat is detected, at least 4 beat timestamps are stored after appending
the new one to the bounded history, and some interval survives the median
outlier filter; in that case `beat_interval` becomes the mean of the
surviving intervals and `estimated_bpm` becomes `60 / beat_interval`
clamped into `[60, 200]`; in every other case both hold their previous
values. -/
theorem bpm_update_characterization (st : BeatTracker) (e t : ℚ) :
    ((BeatTracker.process st e t).2.2.estimated_bpm,
      (BeatTracker.process st e t).2.2.beat_interval) =
      if (BeatTracker.process st e t).1 = true
          ∧ 4 ≤ (pushBounded 50 st.beat_times t).length
          ∧ BeatTracker.validIntervals (pushBounded 50 st.beat_times t) ≠ [] then
        (max 60 (min 200
            (60 / mean (BeatTracker.validIntervals (pushBounded 50 st.beat_times t)))),
          mean (BeatTracker.validIntervals (pushBounded 50 st.beat_times t)))
      else (st.estimated_bpm, st.beat_interval) := by
  simp only [BeatTracker.process, BeatTracker.updateBpm]
  split_ifs <;> simp_all
  omega

/-- Defaulted indexing into a list of nonnegative values is
nonnegative. -/
lemma getD_nonneg {l : List ℚ} (h : ∀ x ∈ l, 0 ≤ x) (k : ℕ) : 0 ≤ l.getD k 0 := by
  rcases lt_or_le k l.length with hk | hk
  · rw [List.getD_eq_getElem l 0 hk]
    exact h _ (l.getElem_mem hk)
  · rw [List.getD_eq_default l 0 hk]

/-- The mean of a list of nonnegative rationals is nonnegative. -/
lemma mean_nonneg {l : List ℚ} (h : ∀ x ∈ l, 0 ≤ x) : 0 ≤ mean l :=
  div_nonneg (List.sum_nonneg h) (by positivity)

/-- A band energy over a nonnegative spectrum is nonnegative. -/
lemma bandEnergy_nonneg {spectrum : List ℚ} (h : ∀ x ∈ spectrum, 0 ≤ x)
    (bins : List ℕ) : 0 ≤ bandEnergy spectrum bins := by
  unfold bandEnergy
  split
  · refine mean_nonneg ?_
    intro x hx
    rw [List.mem_map] at hx
    obtain ⟨k, -, rfl⟩ := hx
    exact getD_nonneg h k
  · exact le_rfl

/-- A normalized band value `min (energy / d) 1` lies in `[0, 1]` when the
energy is nonnegative and the divisor positive. -/
lemma bandValue_unit {energy d : ℚ} (he : 0 ≤ energy) (hd : 0 < d) :
    0 ≤ min (energy / d) 1 ∧ min (energy / d) 1 ≤ 1 :=
  ⟨le_min (div_nonneg he hd.le) zero_le_one, min_le_right _ _⟩

/-- One exponential-smoothing step with factor `3/10` keeps `[0, 1]`. -/
lemma smoothing_step_unit {s r : ℚ} (hs0 : 0 ≤ s) (hs1 : s ≤ 1)
    (hr0 : 0 ≤ r) (hr1 : r ≤ 1) :
    0 ≤ s * FrequencyAnalyzer.smoothingFactor
        + r * (1 - FrequencyAnalyzer.smoothingFactor)
      ∧ s * FrequencyAnalyzer.smoothingFactor
        + r * (1 - FrequencyAnalyzer.smoothingFactor) ≤ 1 := by
  unfold FrequencyAnalyzer.smoothingFactor
  constructor <;> nlinarith

/-- One `FrequencyAnalyzer.process` call keeps all three smoothing
accumulators in `[0, 1]`. -/
lemma freqProcess_state_unit {st : FreqState} (spectrumRaw : List ℚ)
    (h1 : 0 ≤ st.bass_smooth ∧ st.bass_smooth ≤ 1)
    (h2 : 0 ≤ st.mid_smooth ∧ st.mid_smooth ≤ 1)
    (h3 : 0 ≤ st.treble_smooth ∧ st.treble_smooth ≤ 1) :
    (0 ≤ (FrequencyAnalyzer.process st spectrumRaw).2.bass_smooth ∧
      (FrequencyAnalyzer.process st spectrumRaw).2.bass_smooth ≤ 1) ∧
    (0 ≤ (FrequencyAnalyzer.process st spectrumRaw).2.mid_smooth ∧
      (FrequencyAnalyzer.process st spectrumRaw).2.mid_smooth ≤ 1) ∧
    (0 ≤ (FrequencyAnalyzer.process st spectrumRaw).2.treble_smooth ∧
      (FrequencyAnalyzer.process st spectrumRaw).2.treble_smooth ≤ 1) := by
  have habs : ∀ x ∈ spectrumRaw.map (fun x => |x|), (0:ℚ) ≤ x := by
    intro x hx
    rw [List.mem_map] at hx
    obtain ⟨y, -, rfl⟩ := hx
    exact abs_nonneg y
  have hb := bandValue_unit (d := 10)
    (bandEnergy_nonneg habs bassBins) (by norm_num)
  have hm := bandValue_unit (d := 8)
    (bandEnergy_nonneg habs midBins) (by norm_num)
  have ht := bandValue_unit (d := 5)
    (bandEnergy_nonneg habs trebleBins) (by norm_num)
  exact ⟨smoothing_step_unit h1.1 h1.2 hb.1 hb.2,
    smoothing_step_unit h2.1 h2.2 hm.1 hm.2,
    smoothing_step_unit h3.1 h3.2 ht.1 ht.2⟩

/-- Any run of `FrequencyAnalyzer.process` from an in-range state keeps
all three smoothing accumulators in `[0, 1]`. -/
lemma freqRun_unit (specs : List (List ℚ)) :
    ∀ st : FreqState,
      (0 ≤ st.bass_smooth ∧ st.bass_smooth ≤ 1) →
      (0 ≤ st.mid_smooth ∧ st.mid_smooth ≤ 1) →
      (0 ≤ st.treble_smooth ∧ st.treble_smooth ≤ 1) →
      (0 ≤ (FrequencyAnalyzer.run st specs).bass_smooth ∧
        (FrequencyAnalyzer.run st specs).bass_smooth ≤ 1) ∧
      (0 ≤ (FrequencyAnalyzer.run st specs).mid_smooth ∧
        (FrequencyAnalyzer.run st specs).mid_smooth ≤ 1) ∧
      (0 ≤ (FrequencyAnalyzer.run st specs).treble_smooth ∧
        (FrequencyAnalyzer.run st specs).treble_smooth ≤ 1) := by
  induction specs with
  | nil => intro st h1 h2 h3; exact ⟨h1, h2, h3⟩
  | cons spec specs ih =>
    intro st h1 h2 h3
    have h := freqProcess_state_unit spec h1 h2 h3
    exact ih _ h.1 h.2.1 h.2.2

/-- C7: the smoothed bass, mid and treble values returned by every call
to `FrequencyAnalyzer.process` lie in `[0, 1]`: each raw band energy is
nonnegative, divided by its fixed band divisor and capped at 1, and the
exponential smoothing with factor `0.3` starting from accumulators at 0
keeps all three in `[0, 1]` across every sequence of calls. -/
theorem band_values_in_unit_interval (specs : List (List ℚ)) (spectrumRaw : List ℚ) :
    (0 ≤ (FrequencyAnalyzer.process
          (FrequencyAnalyzer.run FrequencyAnalyzer.init specs) spectrumRaw).1.1 ∧
      (FrequencyAnalyzer.process
          (FrequencyAnalyzer.run FrequencyAnalyzer.init specs) spectrumRaw).1.1 ≤ 1) ∧
    (0 ≤ (FrequencyAnalyzer.process
          (FrequencyAnalyzer.run FrequencyAnalyzer.init specs) spectrumRaw).1.2.1 ∧
      (FrequencyAnalyzer.process
          (FrequencyAnalyzer.run FrequencyAnalyzer.init specs) spectrumRaw).1.2.1 ≤ 1) ∧
    (0 ≤ (FrequencyAnalyzer.process
          (FrequencyAnalyzer.run FrequencyAnalyzer.init specs) spectrumRaw).1.2.2.1 ∧
      (FrequencyAnalyzer.process
          (FrequencyAnalyzer.run FrequencyAnalyzer.init specs) spectrumRaw).1.2.2.1 ≤ 1) := by
  have h0 : (0:ℚ) ≤ 0 ∧ (0:ℚ) ≤ 1 := by norm_num
  have h := freqRun_unit specs FrequencyAnalyzer.init h0 h0 h0
  exact freqProcess_state_unit spectrumRaw h.1 h.2.1 h.2.2

/-- C9: on a silent `AudioFeatures` input, `MovementMapper.process`
returns the idle-style command determined by the preset's `idle_style`
from the advanced idle phase, advances the idle-phase accumulator by
`0.02`, leaves all five exponential-smoothing accumulators unchanged, and
applies neither smoothing nor random variation — the result does not
depend on the random oracle at all. -/
theorem silent_input_idle_movement (m : MovementMapper) (rnd : Rand)
    (f : AudioFeatures) :
    (MovementMapper.process m rnd { f with is_silent := true }).1 =
      MovementMapper.idleCommand m.preset (m.idle_phase + 1/50) ∧
    (MovementMapper.process m rnd { f with is_silent := true }).2.idle_phase =
      m.idle_phase + 1/50 ∧
    (MovementMapper.process m rnd { f with is_silent := true }).2.smooth_head_z =
      m.smooth_head_z ∧
    (MovementMapper.process m rnd { f with is_silent := true }).2.smooth_head_roll =
      m.smooth_head_roll ∧
    (MovementMapper.process m rnd { f with is_silent := true }).2.smooth_body_yaw =
      m.smooth_body_yaw ∧
    (MovementMapper.process m rnd { f with is_silent := true }).2.smooth_antenna_l =
      m.smooth_antenna_l ∧
    (MovementMapper.process m rnd { f with is_silent := true }).2.smooth_antenna_r =
      m.smooth_antenna_r ∧
    ∀ rnd2 : Rand,
      MovementMapper.process m rnd2 { f with is_silent := true } =
        MovementMapper.process m rnd { f with is_silent := true } :=
  ⟨rfl, rfl, rfl, rfl, rfl, rfl, rfl, fun _ => rfl⟩

/-- Zero-energy chunks never trigger beat detection: the detection
condition requires the chunk's RMS energy to exceed the silence floor
`0.002`. -/
lemma process_zero_energy_no_beat (st : BeatTracker) (t : ℚ) :
    (BeatTracker.process st 0 t).1 = false := by
  have h500 : ¬ ((1/500 : ℚ) < 0) := by norm_num
  simp only [BeatTracker.process]
  split
  · rfl
  · have h2 : ¬ ((500:ℚ) < 0) := by norm_num
    simp [h500, h2]

/-- One callback step on a zero-energy chunk: no beat, the silence
counter increments, and the snapshot is silent exactly when the counter
exceeds 10. -/
lemma callback_zero_energy (st : AnalyzerState) (spectrumRaw : List ℚ) (t : ℚ) :
    (AudioAnalyzer.callback st 0 spectrumRaw t).1.beat_detected = false ∧
    (AudioAnalyzer.callback st 0 spectrumRaw t).1.is_silent =
      decide (10 < st.frames_silent + 1) ∧
    (AudioAnalyzer.callback st 0 spectrumRaw t).2.frames_silent =
      st.frames_silent + 1 := by
  have hlt : (0:ℚ) < AudioAnalyzer.silenceThreshold := by
    norm_num [AudioAnalyzer.silenceThreshold]
  refine ⟨process_zero_energy_no_beat st.tracker t, ?_, ?_⟩ <;>
    simp [AudioAnalyzer.callback, hlt]

/-- A run over zero-energy chunks yields one snapshot per timestamp. -/
lemma runZeroChunks_length (ts : List ℚ) :
    ∀ (st : AnalyzerState) (specs : List (List ℚ)),
      (AudioAnalyzer.runZeroChunks st ts specs).length = ts.length := by
  induction ts with
  | nil => intro st specs; rfl
  | cons t ts ih =>
    intro st specs
    simp [AudioAnalyzer.runZeroChunks, ih]

/-- No snapshot of a zero-energy run reports a beat. -/
lemma runZeroChunks_no_beat (ts : List ℚ) :
    ∀ (st : AnalyzerState) (specs : List (List ℚ)),
      ∀ f ∈ AudioAnalyzer.runZeroChunks st ts specs, f.beat_detected = false := by
  induction ts with
  | nil => intro st specs f hf; simp [AudioAnalyzer.runZeroChunks] at hf
  | cons t ts ih =>
    intro st specs f hf
    rw [AudioAnalyzer.runZeroChunks, List.mem_cons] at hf
    rcases hf with rfl | hf
    · exact (callback_zero_energy st (specs.headD []) t).1
    · exact ih _ _ f hf

/-- From chunk 11 on (0-indexed snapshot 10), every snapshot of a
zero-energy run is silent: the counter has exceeded the debounce
window. -/
lemma runZeroChunks_silent (ts : List ℚ) :
    ∀ (st : AnalyzerState) (specs : List (List ℚ)) (i : ℕ),
      10 ≤ st.frames_silent + i → i < ts.length →
      ((AudioAnalyzer.runZeroChunks st ts specs).getD i noFeatures).is_silent = true := by
  induction ts with
  | nil => intro st specs i _ hlen; simp at hlen
  | cons t ts ih =>
    intro st specs i h10 hlen
    rw [AudioAnalyzer.runZeroChunks]
    cases i with
    | zero =>
      have h := (callback_zero_energy st (specs.headD []) t).2.1
      simp only [List.getD_cons_zero, h, decide_eq_true_eq]
      omega
    | succ i =>
      simp only [List.getD_cons_succ]
      have hfr := (callback_zero_energy st (specs.headD []) t).2.2
      refine ih _ _ i ?_ (by simpa using hlen)
      rw [hfr]
      omega

/-- C4: for every stream of all-zero audio chunks (RMS energy 0), every
snapshot from chunk 11 on has `is_silent = true`, `beat_detected` is
false on every chunk of the stream, and an all-zero chunk indeed has RMS
energy 0. -/
theorem zero_stream_silent_no_beat (st : AnalyzerState) (ts : List ℚ)
    (specs : List (List ℚ)) (n : ℕ) :
    (∀ f ∈ AudioAnalyzer.runZeroChunks st ts specs, f.beat_detected = false) ∧
    (∀ i, 10 ≤ i → i < ts.length →
      ((AudioAnalyzer.runZeroChunks st ts specs).getD i noFeatures).is_silent = true) ∧
    rmsEnergy (List.replicate n 0) = 0 := by
  refine ⟨runZeroChunks_no_beat ts st specs, ?_, ?_⟩
  · intro i h10 hlen
    exact runZeroChunks_silent ts st specs i (by omega) hlen
  · have hsq : AudioAnalyzer.rmsSq (List.replicate n 0) = 0 := by
      simp [AudioAnalyzer.rmsSq, mean]
    rw [rmsEnergy, hsq]
    simp

/-- Witness for C4 at a concrete stream of 12 all-zero chunks starting
from a fresh analyzer: the snapshot of chunk 11 is silent. -/
theorem zero_stream_silent_no_beat_witness :
    ((AudioAnalyzer.runZeroChunks AudioAnalyzer.init
        [0, 1, 2, 3, 4, 5, 6, 7, 8, 9, 10, 11] []).getD 10 noFeatures).is_silent
      = true :=
  (zero_stream_silent_no_beat AudioAnalyzer.init
      [0, 1, 2, 3, 4, 5, 6, 7, 8, 9, 10, 11] [] 0).2.1 10 (by norm_num) (by norm_num)

/-- The Hann window produced by `np.hanning(M)` has length `M`. -/
lemma hanning_length (M : ℕ) : (hanning M).length = M := by
  unfold hanning
  split
  · simp [*]
  · rw [List.length_map, List.length_range]

/-- C5 counterexample: on the three-sample chunk `[1, 1, 1]` with FFT
size 4, the array the code feeds to the FFT differs from the
pad-first-then-window array the spec describes — the code windows with
`hanning 3` before padding, so its second entry is
`1 - cos(pi)/2 - 1/2 = 1`, while the spec's order would window the padded
chunk with `hanning 4`, giving `3/4`. -/
theorem window_before_pad_counterexample :
    windowedPadded 4 [(1:ℝ), 1, 1] ≠ windowedPaddedSpecOrder 4 [(1:ℝ), 1, 1] := by
  intro h
  have h1 := congrArg (fun l => l.getD 1 0) h
  have hr3 : List.range 3 = [0, 1, 2] := rfl
  have hr4 : List.range 4 = [0, 1, 2, 3] := rfl
  simp [windowedPadded, windowedPaddedSpecOrder, hanning, hr3, hr4] at h1
  have e1 : (2 * Real.pi / ((3:ℝ) - 1)) = Real.pi := by ring
  have e2 : (2 * Real.pi / ((4:ℝ) - 1)) = Real.pi - Real.pi / 3 := by ring
  rw [e1, e2, Real.cos_pi, Real.cos_pi_sub, Real.cos_pi_div_three] at h1
  norm_num at h1

/-- C5 amended: when the chunk is shorter than the FFT size,
`FrequencyAnalyzer.process` applies the Hann window of length equal to
the CHUNK length first and only then zero-pads the windowed chunk up to
the FFT size, so the window's length matches the original chunk, not the
padded length. -/
theorem window_applied_before_padding (fftN : ℕ) (chunk : List ℝ)
    (h : chunk.length < fftN) :
    windowedPadded fftN chunk =
      List.zipWith (· * ·) chunk (hanning chunk.length)
        ++ List.replicate (fftN - chunk.length) 0 ∧
    (hanning chunk.length).length = chunk.length := by
  have hl : (hanning chunk.length).length = chunk.length := hanning_length _
  have hw : (List.zipWith (· * ·) chunk (hanning chunk.length)).length = chunk.length := by
    rw [List.length_zipWith, hl, min_self]
  refine ⟨?_, hl⟩
  simp only [windowedPadded]
  rw [if_pos (by rw [hw]; exact h), hw]
  apply List.take_of_length_le
  rw [List.length_append, List.length_replicate, hw]
  omega

/-- Witness for the amended C5 at the concrete chunk `[1, 1, 1]` with FFT
size 4. -/
theorem window_applied_before_padding_witness :
    windowedPadded 4 [(1:ℝ), 1, 1] =
      List.zipWith (· * ·) [(1:ℝ), 1, 1] (hanning ([(1:ℝ), 1, 1]).length)
        ++ List.replicate (4 - ([(1:ℝ), 1, 1]).length) 0 ∧
    (hanning ([(1:ℝ), 1, 1]).length).length = ([(1:ℝ), 1, 1]).length :=
  window_applied_before_padding 4 [(1:ℝ), 1, 1] (by norm_num)

end DJReactor
